import Mathlib

/-!
Shallow embedding of the query-and-mutation gateway of the food-waste
management application (`foodapp.py`): connection provisioning, the
TTL read cache, transactional mutation execution, the report catalog
queries, and the client-side KPI computations, together with theorems
settling the specification claims about them.
-/

/-- A SQL bind value, as passed through the positional `%s` placeholders. -/
inductive SqlValue where
  | null : SqlValue
  | int : Int → SqlValue
  | str : String → SqlValue
  deriving DecidableEq, Repr

/-- An ordered tuple of bind parameters. -/
abbrev SqlParams := List SqlValue

/-- Observable connection / transaction events of one gateway operation. -/
inductive Ev where
  | openConn : Ev
  | commitTx : Ev
  | rollbackTx : Ev
  | closeConn : Ev
  deriving DecidableEq, Repr

/-- The five sidebar / environment configuration inputs
(`DB_HOST`, `DB_NAME`, `DB_USER`, `DB_PASS`, `DB_PORT`, lines 20-24). -/
structure DbConfig where
  DB_HOST : String
  DB_NAME : String
  DB_USER : String
  DB_PASS : String
  DB_PORT : Int
  deriving DecidableEq, Repr

/-- The keyword arguments handed to `psycopg2.connect`. -/
structure ConnArgs where
  host : String
  dbname : String
  user : String
  password : String
  port : String
  deriving DecidableEq, Repr

/-- `get_conn` (lines 29-32): the connect call is made with literal
constants; the `DbConfig` gathered from the sidebar is never consulted. -/
def get_conn (_cfg : DbConfig) : ConnArgs :=
  { host := "localhost", dbname := "foodapp", user := "postgres",
    password := "nagda@321", port := "5432" }

/-- The `ttl=60` argument of `st.cache_data`. -/
def cacheTTL : Nat := 60

/-- The process-wide read cache: an association list keyed by the exact
(query text, parameter tuple) pair, holding the fetch time and the value. -/
abbrev ReadCache (T : Type) := List ((String × SqlParams) × (Nat × T))

/-- Look up a cache entry by its (query, params) key. -/
def lookupCache {T : Type} : ReadCache T → String × SqlParams → Option (Nat × T)
  | [], _ => none
  | (k2, e) :: rest, k => if k2 = k then some e else lookupCache rest k

/-- Store a cache entry, replacing any previous entry with the same key. -/
def insertCache {T : Type} : ReadCache T → String × SqlParams → Nat × T → ReadCache T
  | [], k, e => [(k, e)]
  | (k2, e2) :: rest, k, e =>
      if k2 = k then (k, e) :: rest else (k2, e2) :: insertCache rest k e

/-- The body of `read_sql` (lines 36-41): `conn = get_conn()`, then
`pd.read_sql` inside `try`, with `conn.close()` in `finally` — so the
connection is opened and closed on the success path and on the error
path alike, and the result (or error) of the store round-trip is
returned unchanged. -/
def read_sql_body {E T : Type} (run : String → SqlParams → Except E T)
    (q : String) (p : SqlParams) : Except E T × List Ev :=
  (run q p, [Ev.openConn, Ev.closeConn])

/-- `read_sql` (lines 34-41) with its `@st.cache_data(ttl=60)` wrapper:
a hit younger than the TTL returns the cached table with no store
contact; a miss or an expired entry runs the body and, on success,
refreshes the cache entry for that key. (Streamlit does not cache
raised errors.) Returns (result, new cache state, connection events). -/
def read_sql {E T : Type} (run : String → SqlParams → Except E T)
    (now : Nat) (cache : ReadCache T) (q : String) (p : SqlParams) :
    Except E T × ReadCache T × List Ev :=
  match lookupCache cache (q, p) with
  | some (t0, tbl) =>
      if now < t0 + cacheTTL then
        (Except.ok tbl, cache, [])
      else
        match read_sql_body run q p with
        | (Except.ok tbl2, evs) => (Except.ok tbl2, insertCache cache (q, p) (now, tbl2), evs)
        | (Except.error e, evs) => (Except.error e, cache, evs)
  | none =>
      match read_sql_body run q p with
      | (Except.ok tbl2, evs) => (Except.ok tbl2, insertCache cache (q, p) (now, tbl2), evs)
      | (Except.error e, evs) => (Except.error e, cache, evs)

/-- What one `execute_sql` call asks the cursor to do (lines 48-51):
`executemany` folds the statement over every tuple of `many` when
`many` is given, otherwise `execute` runs it once on `params`.
`exec` is the store's semantics of one statement execution on the
transaction-local state. -/
def exec_body {E S : Type} (exec : String → SqlParams → S → Except E S)
    (query : String) (params : SqlParams) (many : Option (List SqlParams))
    (db : S) : Except E S :=
  match many with
  | some m => m.foldlM (fun st p => exec query p st) db
  | none => exec query params db

/-- Outcome of one `execute_sql` call: the propagated result, the
committed store visible afterwards, and the connection events. -/
structure ExecOutcome (E S : Type) where
  result : Except E Unit
  store : S
  events : List Ev
  deriving Repr

/-- `execute_sql` (lines 43-53): `with conn:` commits the transaction
when the cursor block exits normally and rolls it back (leaving the
committed store unchanged) when it raises, re-raising the error; the
`finally` closes the connection in both cases. -/
def execute_sql {E S : Type} (exec : String → SqlParams → S → Except E S)
    (query : String) (params : SqlParams) (many : Option (List SqlParams))
    (db : S) : ExecOutcome E S :=
  match exec_body exec query params many db with
  | Except.ok db2 => ⟨Except.ok (), db2, [Ev.openConn, Ev.commitTx, Ev.closeConn]⟩
  | Except.error e => ⟨Except.error e, db, [Ev.openConn, Ev.rollbackTx, Ev.closeConn]⟩

/-- `date_expr` (lines 56-58): interpolates a column name into a
`::date` cast expression. -/
def date_expr (colname : String) : String :=
  "\"" ++ colname ++ "\"::date"

/-- A row of the `providers` table (the columns the gateway touches). -/
structure Provider where
  Provider_ID : Int
  Name : String
  Ptype : String
  City : String
  Contact : String
  Address : String
  deriving DecidableEq, Repr

/-- A row of the `food_listings` table (the columns the gateway touches;
`Expiry_Date` is stored as text, as in the CSV import). -/
structure FoodRow where
  Food_ID : Int
  Food_Name : String
  Quantity : Int
  Expiry_Date : String
  deriving DecidableEq, Repr

/-- `provider_city` (lines 216-217): `city_filter.strip() if city_filter
else None` — the empty string is falsy in Python, any other input is
stripped of surrounding whitespace. -/
def provider_city (city_filter : String) : Option String :=
  if city_filter = "" then none else some city_filter.trim

/-- How an optional city filter is bound as a SQL parameter: Python
`None` becomes SQL `NULL`. -/
def sqlOfOption (o : Option String) : SqlValue :=
  match o with
  | none => SqlValue.null
  | some s => SqlValue.str s

/-- Insight-3 query (lines 260-268): `SELECT "Name","Type","Contact",
"Address" FROM providers WHERE (%s IS NULL) OR ("City" = %s)` with both
placeholders bound to the same optional city. SQL three-valued logic on
a non-null `City` column: a null filter satisfies the first disjunct for
every row; a non-null filter keeps exactly the rows with `City` equal
to it. -/
def query3 (rows : List Provider) (filt : Option String) :
    List (String × String × String × String) :=
  (rows.filter (fun r => filt.isNone || filt = some r.City)).map
    (fun r => (r.Name, r.Ptype, r.Contact, r.Address))

/-- A date value `(year, month, day)` as produced by the `::date` cast. -/
abbrev DateVal := Nat × Nat × Nat

/-- Strict date comparison, lexicographic on (year, month, day). -/
def dateLtB (a b : DateVal) : Bool :=
  decide (a.1 < b.1 ∨ (a.1 = b.1 ∧ (a.2.1 < b.2.1 ∨ (a.2.1 = b.2.1 ∧ a.2.2 < b.2.2))))

/-- Non-strict date comparison. -/
def dateLeB (a b : DateVal) : Bool :=
  !(dateLtB b a)

/-- Insert into a sorted list, keeping earlier rows first among ties
(the store's stable ordering). -/
def insertSorted {α : Type} (le : α → α → Bool) (a : α) : List α → List α
  | [] => [a]
  | b :: tl => if le a b then a :: b :: tl else b :: insertSorted le a tl

/-- `ORDER BY` as a stable insertion sort. -/
def sortBy {α : Type} (le : α → α → Bool) : List α → List α
  | [] => []
  | a :: tl => insertSorted le a (sortBy le tl)

/-- Reading a nonempty all-digit character group as a number. -/
def digitsToNat? (cs : List Char) : Option Nat :=
  match cs with
  | [] => none
  | _ =>
      cs.foldl (fun acc c =>
        match acc with
        | none => none
        | some n => if c.isDigit then some (n * 10 + (c.toNat - 48)) else none)
        (some 0)

/-- The `::date` cast of one text value: three numeric groups split
on `-`, read as `YYYY-MM-DD`. -/
def parseDate (s : String) : Option DateVal :=
  match (s.toList.splitOn (Char.ofNat 45)).map digitsToNat? with
  | [some y, some m, some d] => some (y, m, d)
  | _ => none

/-- Casting every row's `Expiry_Date` from text to date; a value the
cast cannot parse fails the whole statement, as in the store. -/
def castRows : List FoodRow → Except String (List (FoodRow × DateVal))
  | [] => Except.ok []
  | r :: rest =>
      match parseDate r.Expiry_Date with
      | none => Except.error ("invalid input syntax for type date: " ++ r.Expiry_Date)
      | some d =>
          match castRows rest with
          | Except.ok tl => Except.ok ((r, d) :: tl)
          | Except.error e => Except.error e

/-- Insight-15 query (lines 408-417): cast `Expiry_Date` to date, keep
rows with expiry strictly after the current date, order ascending by
the cast expiry, return the first row's (`Food_Name`, `Expiry_Date`,
`Quantity`) projection if any. -/
def query15 (rows : List FoodRow) (today : DateVal) :
    Except String (Option (String × String × Int)) :=
  match castRows rows with
  | Except.error e => Except.error e
  | Except.ok parsed =>
      let avail := parsed.filter (fun rd => dateLtB today rd.2)
      let sorted := sortBy (fun a b => dateLeB a.2 b.2) avail
      Except.ok (sorted.head?.map (fun rd => (rd.1.Food_Name, rd.1.Expiry_Date, rd.1.Quantity)))

/-- The UPDATE-quantity statement text (line 484). -/
def sqlUpdateQuantity : String :=
  "UPDATE food_listings SET \"Quantity\"=%s WHERE \"Food_ID\"=%s;"

/-- Effect of the UPDATE-quantity statement on one row. -/
def updateQuantityRow (qty fid : Int) (r : FoodRow) : FoodRow :=
  if r.Food_ID = fid then { r with Quantity := qty } else r

/-- Store semantics of the UPDATE-quantity statement: set `Quantity`
of every row whose `Food_ID` matches the bound identifier. -/
def updateQuantityExec (_query : String) (p : SqlParams) (db : List FoodRow) :
    Except String (List FoodRow) :=
  match p with
  | [SqlValue.int qty, SqlValue.int fid] => Except.ok (db.map (updateQuantityRow qty fid))
  | _ => Except.error "invalid parameter tuple"

/-- `completed_claims` (line 94): how many claim rows have status
`Completed`. -/
def completed_claims (statuses : List String) : Nat :=
  (statuses.filter (fun s => s = "Completed")).length

/-- Python `round` to the nearest integer: round-half-to-even. -/
def roundHalfEven (x : ℚ) : ℤ :=
  if x - ⌊x⌋ < 1 / 2 then ⌊x⌋
  else if 1 / 2 < x - ⌊x⌋ then ⌊x⌋ + 1
  else if ⌊x⌋ % 2 = 0 then ⌊x⌋ else ⌊x⌋ + 1

/-- Python `round(x, 2)`: round-half-to-even at two decimal places. -/
def round2 (x : ℚ) : ℚ :=
  (roundHalfEven (x * 100) : ℚ) / 100

/-- `success_rate` (line 95): `round(100 * completed_claims /
total_claims, 2) if total_claims else 0.0`. -/
def success_rate (statuses : List String) : ℚ :=
  if statuses.length = 0 then 0
  else round2 (100 * (completed_claims statuses : ℚ) / (statuses.length : ℚ))

/-- The projection of a provider row made by the insight-3 SELECT list. -/
def providerContact (r : Provider) : String × String × String × String :=
  (r.Name, r.Ptype, r.Contact, r.Address)

lemma updateQuantityRow_idem (qty fid : Int) (r : FoodRow) :
    updateQuantityRow qty fid (updateQuantityRow qty fid r) = updateQuantityRow qty fid r := by
  unfold updateQuantityRow
  by_cases h : r.Food_ID = fid <;> simp [h]

lemma lookupCache_insert_self {T : Type} (c : ReadCache T) (k : String × SqlParams)
    (e : Nat × T) : lookupCache (insertCache c k e) k = some e := by
  induction c with
  | nil => simp [insertCache, lookupCache]
  | cons hd tl ih =>
    obtain ⟨k2, e2⟩ := hd
    by_cases h : k2 = k
    · simp [insertCache, h, lookupCache]
    · simp [insertCache, h, lookupCache, ih]

/-- C1: `execute_sql` is transactional. Single tuple: a successful
statement commits the new store, a failing one leaves the store
unchanged and propagates the error. Batch: if the whole batch folds
successfully it commits the folded store; if any statement of the batch
fails after a successful run of the statements before it, the
committed store is exactly the one from before the call (full
rollback) and that statement's error propagates. -/
theorem execute_sql_atomic (E S : Type) (exec : String → SqlParams → S → Except E S)
    (q : String) (ps : SqlParams) (m : List SqlParams) (db : S) :
    (∀ db2 : S, exec q ps db = Except.ok db2 →
      execute_sql exec q ps none db =
        ⟨Except.ok (), db2, [Ev.openConn, Ev.commitTx, Ev.closeConn]⟩) ∧
    (∀ e : E, exec q ps db = Except.error e →
      execute_sql exec q ps none db =
        ⟨Except.error e, db, [Ev.openConn, Ev.rollbackTx, Ev.closeConn]⟩) ∧
    (∀ db2 : S, exec_body exec q ps (some m) db = Except.ok db2 →
      execute_sql exec q ps (some m) db =
        ⟨Except.ok (), db2, [Ev.openConn, Ev.commitTx, Ev.closeConn]⟩) ∧
    (∀ (pre : List SqlParams) (pfail : SqlParams) (rest : List SqlParams) (dmid : S) (e : E),
      m = pre ++ pfail :: rest →
      pre.foldlM (fun st pp => exec q pp st) db = Except.ok dmid →
      exec q pfail dmid = Except.error e →
      execute_sql exec q ps (some m) db =
        ⟨Except.error e, db, [Ev.openConn, Ev.rollbackTx, Ev.closeConn]⟩) := by
  refine ⟨?_, ?_, ?_, ?_⟩
  · intro db2 h
    simp [execute_sql, exec_body, h]
  · intro e h
    simp [execute_sql, exec_body, h]
  · intro db2 h
    simp [execute_sql, h]
  · intro pre pfail rest dmid e hm hpre hf
    have hbody : exec_body exec q ps (some m) db = Except.error e := by
      subst hm
      show (pre ++ pfail :: rest).foldlM (fun st pp => exec q pp st) db = Except.error e
      rw [List.foldlM_append, hpre]
      show (pfail :: rest).foldlM (fun st pp => exec q pp st) dmid = Except.error e
      rw [List.foldlM_cons, hf]
      rfl
    simp [execute_sql, hbody]

/-- C1 witness: a three-row batch whose middle tuple violates the
statement's constraint is fully rolled back: the committed store is the
one from before the call and the failing tuple's error propagates. -/
theorem execute_sql_atomic_witness :
    execute_sql
        (fun _ p st =>
          match p with
          | [SqlValue.int i] =>
              if i < 0 then Except.error "constraint violated" else Except.ok (st ++ [i])
          | _ => Except.error "bad tuple")
        "INSERT INTO food_listings (\"Quantity\") VALUES (%s);" []
        (some [[SqlValue.int 1], [SqlValue.int (-1)], [SqlValue.int 2]]) ([] : List Int) =
      ⟨Except.error "constraint violated", [], [Ev.openConn, Ev.rollbackTx, Ev.closeConn]⟩ :=
  (execute_sql_atomic String (List Int)
      (fun _ p st =>
        match p with
        | [SqlValue.int i] =>
            if i < 0 then Except.error "constraint violated" else Except.ok (st ++ [i])
        | _ => Except.error "bad tuple")
      "INSERT INTO food_listings (\"Quantity\") VALUES (%s);" []
      [[SqlValue.int 1], [SqlValue.int (-1)], [SqlValue.int 2]] []).2.2.2
    [[SqlValue.int 1]] [SqlValue.int (-1)] [[SqlValue.int 2]] [1] "constraint violated"
    rfl rfl rfl

/-- C2: With an unseen (query, params) key the cached read runs the
store query, caches the result at the current time, and returns it;
a second call within 60 seconds returns the identical table with no
store contact and an unchanged cache; a call at or after expiry runs
the store query again and replaces the cache entry for that key. -/
theorem read_sql_cache_ttl (E T : Type) (run : String → SqlParams → Except E T)
    (t0 : Nat) (cache : ReadCache T) (q : String) (p : SqlParams) (tbl : T)
    (hmiss : lookupCache cache (q, p) = none)
    (hrun : run q p = Except.ok tbl) :
    read_sql run t0 cache q p =
      (Except.ok tbl, insertCache cache (q, p) (t0, tbl), [Ev.openConn, Ev.closeConn]) ∧
    (∀ t1 : Nat, t1 < t0 + cacheTTL →
      read_sql run t1 (insertCache cache (q, p) (t0, tbl)) q p =
        (Except.ok tbl, insertCache cache (q, p) (t0, tbl), [])) ∧
    (∀ t2 : Nat, t0 + cacheTTL ≤ t2 →
      read_sql run t2 (insertCache cache (q, p) (t0, tbl)) q p =
        (Except.ok tbl, insertCache (insertCache cache (q, p) (t0, tbl)) (q, p) (t2, tbl),
          [Ev.openConn, Ev.closeConn])) := by
  refine ⟨?_, ?_, ?_⟩
  · simp [read_sql, read_sql_body, hmiss, hrun]
  · intro t1 ht1
    simp [read_sql, lookupCache_insert_self, ht1]
  · intro t2 ht2
    have ht2n : ¬ t2 < t0 + cacheTTL := not_lt.mpr ht2
    simp [read_sql, read_sql_body, lookupCache_insert_self, ht2n, hrun]

/-- C2 witness: a concrete store function, an empty cache and the
providers query: the first call fetches and caches at time 0, a repeat at
time 59 is served from the cache with no store contact, and a repeat at
time 60 re-executes and refreshes the entry. -/
theorem read_sql_cache_ttl_witness :
    lookupCache ([] : ReadCache Nat) ("SELECT * FROM providers;", []) = none ∧
    (fun (_ : String) (_ : SqlParams) => (Except.ok 42 : Except Unit Nat))
        "SELECT * FROM providers;" [] = Except.ok 42 ∧
    (read_sql (fun (_ : String) (_ : SqlParams) => (Except.ok 42 : Except Unit Nat))
          0 [] "SELECT * FROM providers;" [] =
        (Except.ok 42, insertCache [] ("SELECT * FROM providers;", []) (0, 42),
          [Ev.openConn, Ev.closeConn]) ∧
      (∀ t1 : Nat, t1 < 0 + cacheTTL →
        read_sql (fun (_ : String) (_ : SqlParams) => (Except.ok 42 : Except Unit Nat)) t1
            (insertCache [] ("SELECT * FROM providers;", []) (0, 42))
            "SELECT * FROM providers;" [] =
          (Except.ok 42, insertCache [] ("SELECT * FROM providers;", []) (0, 42), [])) ∧
      (∀ t2 : Nat, 0 + cacheTTL ≤ t2 →
        read_sql (fun (_ : String) (_ : SqlParams) => (Except.ok 42 : Except Unit Nat)) t2
            (insertCache [] ("SELECT * FROM providers;", []) (0, 42))
            "SELECT * FROM providers;" [] =
          (Except.ok 42,
            insertCache (insertCache [] ("SELECT * FROM providers;", []) (0, 42))
              ("SELECT * FROM providers;", []) (t2, 42),
            [Ev.openConn, Ev.closeConn]))) :=
  ⟨rfl, rfl,
    read_sql_cache_ttl Unit Nat
      (fun (_ : String) (_ : SqlParams) => (Except.ok 42 : Except Unit Nat))
      0 [] "SELECT * FROM providers;" [] 42 rfl rfl⟩

/-- C9: Every operation that contacts the store opens exactly one
connection and closes it before returning, on success and on failure
alike, and no error is swallowed: a cached read either makes no store
contact at all (TTL hit) or opens then closes one connection; on a
cache miss its result is exactly the store function's result; a write
always opens then closes one connection around its transaction, and it
reports an error exactly when its statement body failed, with the same
error. -/
theorem connection_scoping (E T S : Type) (run : String → SqlParams → Except E T)
    (now : Nat) (cache : ReadCache T) (q : String) (p : SqlParams)
    (exec : String → SqlParams → S → Except E S) (query : String)
    (ps : SqlParams) (many : Option (List SqlParams)) (db : S) :
    ((read_sql run now cache q p).2.2 = [] ∨
      (read_sql run now cache q p).2.2 = [Ev.openConn, Ev.closeConn]) ∧
    (lookupCache cache (q, p) = none →
      (read_sql run now cache q p).1 = run q p ∧
      (read_sql run now cache q p).2.2 = [Ev.openConn, Ev.closeConn]) ∧
    ((execute_sql exec query ps many db).events =
        [Ev.openConn, Ev.commitTx, Ev.closeConn] ∨
      (execute_sql exec query ps many db).events =
        [Ev.openConn, Ev.rollbackTx, Ev.closeConn]) ∧
    (∀ e : E, (execute_sql exec query ps many db).result = Except.error e ↔
      exec_body exec query ps many db = Except.error e) := by
  refine ⟨?_, ?_, ?_, ?_⟩
  · cases hl : lookupCache cache (q, p) with
    | none => cases hr : run q p <;> simp [read_sql, read_sql_body, hl, hr]
    | some e0 =>
      obtain ⟨t0, tbl⟩ := e0
      by_cases ht : now < t0 + cacheTTL
      · simp [read_sql, hl, ht]
      · cases hr : run q p <;> simp [read_sql, read_sql_body, hl, ht, hr]
  · intro hl
    cases hr : run q p <;> simp [read_sql, read_sql_body, hl, hr]
  · cases hb : exec_body exec query ps many db <;> simp [execute_sql, hb]
  · intro e
    cases hb : exec_body exec query ps many db <;> simp [execute_sql, hb]

/-- C9 witness: at concrete inputs — an empty cache, a store read that
returns 7, and a write whose statement succeeds — the cached read and
the write both close their connection and propagate results exactly. -/
theorem connection_scoping_witness :
    ((read_sql (fun _ _ => (Except.ok 7 : Except Unit Nat)) 5 [] "SELECT 1;" []).2.2 = [] ∨
      (read_sql (fun _ _ => (Except.ok 7 : Except Unit Nat)) 5 [] "SELECT 1;" []).2.2 =
        [Ev.openConn, Ev.closeConn]) ∧
    (lookupCache ([] : ReadCache Nat) ("SELECT 1;", []) = none →
      (read_sql (fun _ _ => (Except.ok 7 : Except Unit Nat)) 5 [] "SELECT 1;" []).1 =
        Except.ok 7 ∧
      (read_sql (fun _ _ => (Except.ok 7 : Except Unit Nat)) 5 [] "SELECT 1;" []).2.2 =
        [Ev.openConn, Ev.closeConn]) ∧
    ((execute_sql (fun _ _ (st : Nat) => (Except.ok (st + 1) : Except Unit Nat))
          "UPDATE t;" [] none 3).events = [Ev.openConn, Ev.commitTx, Ev.closeConn] ∨
      (execute_sql (fun _ _ (st : Nat) => (Except.ok (st + 1) : Except Unit Nat))
          "UPDATE t;" [] none 3).events = [Ev.openConn, Ev.rollbackTx, Ev.closeConn]) ∧
    (∀ e : Unit, (execute_sql (fun _ _ (st : Nat) => (Except.ok (st + 1) : Except Unit Nat))
          "UPDATE t;" [] none 3).result = Except.error e ↔
      exec_body (fun _ _ (st : Nat) => (Except.ok (st + 1) : Except Unit Nat))
          "UPDATE t;" [] none 3 = Except.error e) :=
  connection_scoping Unit Nat Nat (fun _ _ => Except.ok 7) 5 [] "SELECT 1;" []
    (fun _ _ st => Except.ok (st + 1)) "UPDATE t;" [] none 3

/-- Preload query for the providers table (line 74). -/
def sqlProviders : String := "SELECT * FROM providers;"

/-- Preload query for the receivers table (line 75). -/
def sqlReceivers : String := "SELECT * FROM receivers;"

/-- Preload query for the food listings table (line 76). -/
def sqlFoodListings : String := "SELECT * FROM food_listings;"

/-- Preload query for the claims table (line 77). -/
def sqlClaims : String := "SELECT * FROM claims;"

/-- Insight 1 (lines 230-245). -/
def sql1 : String :=
  "SELECT \"City\", COUNT(DISTINCT \"Provider_ID\") AS total_providers, COUNT(DISTINCT \"Receiver_ID\") AS total_receivers FROM ( SELECT \"City\", \"Provider_ID\", NULL::int AS \"Receiver_ID\" FROM providers UNION ALL SELECT \"City\", NULL::int, \"Receiver_ID\" FROM receivers ) t GROUP BY \"City\" ORDER BY \"City\";"

/-- Insight 2 (lines 248-257). -/
def sql2 : String :=
  "SELECT \"Provider_Type\", SUM(\"Quantity\") AS total_quantity FROM food_listings GROUP BY \"Provider_Type\" ORDER BY total_quantity DESC LIMIT 1;"

/-- Insight 3 (lines 260-268), the only parameterized insight. -/
def sql3 : String :=
  "SELECT \"Name\", \"Type\", \"Contact\", \"Address\" FROM providers WHERE (%s IS NULL) OR (\"City\" = %s);"

/-- Insight 4 (lines 271-281). -/
def sql4 : String :=
  "SELECT r.\"Name\", r.\"City\", COUNT(c.\"Claim_ID\") AS total_claims FROM claims c JOIN receivers r ON c.\"Receiver_ID\" = r.\"Receiver_ID\" GROUP BY r.\"Name\", r.\"City\" ORDER BY total_claims DESC LIMIT 5;"

/-- Insight 5 (lines 284-287). -/
def sql5 : String :=
  "SELECT SUM(\"Quantity\") AS total_food_available FROM food_listings;"

/-- Insight 6 (lines 290-300). -/
def sql6 : String :=
  "SELECT p.\"City\", COUNT(f.\"Food_ID\") AS total_listings FROM food_listings f JOIN providers p ON f.\"Provider_ID\" = p.\"Provider_ID\" GROUP BY p.\"City\" ORDER BY total_listings DESC LIMIT 1;"

/-- Insight 7 (lines 303-312). -/
def sql7 : String :=
  "SELECT \"Food_Type\", COUNT(\"Food_ID\") AS total_items FROM food_listings GROUP BY \"Food_Type\" ORDER BY total_items DESC;"

/-- Insight 8 (lines 315-325). -/
def sql8 : String :=
  "SELECT f.\"Food_Name\", COUNT(c.\"Claim_ID\") AS total_claims FROM claims c JOIN food_listings f ON c.\"Food_ID\" = f.\"Food_ID\" GROUP BY f.\"Food_Name\" ORDER BY total_claims DESC;"

/-- Insight 9 (lines 328-340). -/
def sql9 : String :=
  "SELECT p.\"Name\", COUNT(c.\"Claim_ID\") AS successful_claims FROM claims c JOIN food_listings f ON c.\"Food_ID\" = f.\"Food_ID\" JOIN providers p ON f.\"Provider_ID\" = p.\"Provider_ID\" WHERE c.\"Status\" = \x27Completed\x27 GROUP BY p.\"Name\" ORDER BY successful_claims DESC LIMIT 1;"

/-- Insight 10 (lines 343-352). -/
def sql10 : String :=
  "SELECT \"Status\", COUNT(*) * 100.0 / SUM(COUNT(*)) OVER() AS percentage FROM claims GROUP BY \"Status\";"

/-- Insight 11 (lines 355-365). -/
def sql11 : String :=
  "SELECT r.\"Name\", ROUND(AVG(f.\"Quantity\"),2) AS avg_quantity_claimed FROM claims c JOIN food_listings f ON c.\"Food_ID\" = f.\"Food_ID\" JOIN receivers r ON c.\"Receiver_ID\" = r.\"Receiver_ID\" GROUP BY r.\"Name\" ORDER BY avg_quantity_claimed DESC;"

/-- Insight 12 (lines 368-378). -/
def sql12 : String :=
  "SELECT f.\"Meal_Type\", COUNT(c.\"Claim_ID\") AS total_claims FROM claims c JOIN food_listings f ON c.\"Food_ID\" = f.\"Food_ID\" GROUP BY f.\"Meal_Type\" ORDER BY total_claims DESC;"

/-- Insight 13 (lines 381-391). -/
def sql13 : String :=
  "SELECT p.\"Name\", SUM(f.\"Quantity\") AS total_donated FROM food_listings f JOIN providers p ON f.\"Provider_ID\" = p.\"Provider_ID\" GROUP BY p.\"Name\" ORDER BY total_donated DESC;"

/-- Insight 14 (lines 394-405). -/
def sql14 : String :=
  "SELECT r.\"City\", COUNT(c.\"Claim_ID\") AS successful_claims FROM claims c JOIN receivers r ON c.\"Receiver_ID\" = r.\"Receiver_ID\" WHERE c.\"Status\" = \x27Completed\x27 GROUP BY r.\"City\" ORDER BY successful_claims DESC LIMIT 1;"

/-- Insight 15 (lines 408-417): the only query text built by
concatenation, and the interpolated piece is `date_expr` applied to the
hard-coded column name `"Expiry_Date"`, exactly as in the f-string. -/
def sql15 : String :=
  "SELECT \"Food_Name\", \"Expiry_Date\", \"Quantity\" FROM food_listings WHERE " ++
    date_expr "Expiry_Date" ++ " > CURRENT_DATE ORDER BY " ++
    date_expr "Expiry_Date" ++ " ASC LIMIT 1;"

/-- CRUD read: all food listings (line 469). -/
def sqlViewFood : String :=
  "SELECT * FROM food_listings ORDER BY \"Food_ID\" DESC LIMIT 500;"

/-- CRUD read: listing picker for the quantity update (line 477). -/
def sqlPickFoodQty : String :=
  "SELECT \"Food_ID\",\"Food_Name\",\"Quantity\" FROM food_listings ORDER BY \"Food_ID\";"

/-- CRUD read: listing picker for deletion and claim creation
(lines 494 and 510). -/
def sqlPickFood : String :=
  "SELECT \"Food_ID\",\"Food_Name\" FROM food_listings ORDER BY \"Food_ID\";"

/-- CRUD read: receiver picker (line 511). -/
def sqlPickReceivers : String :=
  "SELECT \"Receiver_ID\",\"Name\" FROM receivers ORDER BY \"Receiver_ID\";"

/-- CRUD read: all claims (line 531). -/
def sqlViewClaims : String :=
  "SELECT * FROM claims ORDER BY \"Claim_ID\" DESC LIMIT 500;"

/-- CRUD read: claim picker for the status update (line 539). -/
def sqlPickClaimsStatus : String :=
  "SELECT \"Claim_ID\",\"Food_ID\",\"Receiver_ID\",\"Status\" FROM claims ORDER BY \"Claim_ID\";"

/-- CRUD read: claim picker for deletion (line 556). -/
def sqlPickClaims : String :=
  "SELECT \"Claim_ID\",\"Food_ID\",\"Receiver_ID\" FROM claims ORDER BY \"Claim_ID\";"

/-- CRUD write: insert a food listing (lines 454-461). -/
def sqlInsertFood : String :=
  "INSERT INTO food_listings (\"Food_Name\",\"Quantity\",\"Expiry_Date\",\"Provider_ID\",\"Provider_Type\",\"Location\",\"Food_Type\",\"Meal_Type\") VALUES (%s,%s,%s,%s,%s,%s,%s,%s);"

/-- CRUD write: delete a food listing (lines 499-502). -/
def sqlDeleteFood : String :=
  "DELETE FROM food_listings WHERE \"Food_ID\"=%s;"

/-- CRUD write: insert a claim (lines 517-523). -/
def sqlInsertClaim : String :=
  "INSERT INTO claims (\"Food_ID\",\"Receiver_ID\",\"Status\") VALUES (%s,%s,%s);"

/-- CRUD write: update a claim status (lines 545-548). -/
def sqlUpdateClaimStatus : String :=
  "UPDATE claims SET \"Status\"=%s WHERE \"Claim_ID\"=%s;"

/-- CRUD write: delete a claim (lines 561-564). -/
def sqlDeleteClaim : String :=
  "DELETE FROM claims WHERE \"Claim_ID\"=%s;"

/-- Every caller-supplied value that can reach the gateway in one
render pass: the sidebar city filter and the CRUD form fields and
selections. -/
structure AppInputs where
  city_filter : String
  f_name : String
  f_qty : Int
  f_exp : String
  f_pid : Int
  f_ptype : String
  f_loc : String
  f_ftype : String
  f_meal : String
  upd_qty : Int
  upd_food_id : Int
  del_food_id : Int
  claim_food_id : Int
  claim_receiver_id : Int
  claim_status : String
  upd_claim_status : String
  upd_claim_id : Int
  del_claim_id : Int

/-- Every (query text, bound parameters) pair the gateway can issue in
one render pass, reads and writes alike, in source order. Caller-supplied
values appear only in the parameter component. -/
def allQueries (inp : AppInputs) : List (String × SqlParams) :=
  [ (sqlProviders, []), (sqlReceivers, []), (sqlFoodListings, []), (sqlClaims, []),
    (sql1, []), (sql2, []),
    (sql3, [sqlOfOption (provider_city inp.city_filter),
            sqlOfOption (provider_city inp.city_filter)]),
    (sql4, []), (sql5, []), (sql6, []), (sql7, []), (sql8, []), (sql9, []),
    (sql10, []), (sql11, []), (sql12, []), (sql13, []), (sql14, []), (sql15, []),
    (sqlInsertFood,
      [SqlValue.str inp.f_name, SqlValue.int inp.f_qty, SqlValue.str inp.f_exp,
       SqlValue.int inp.f_pid, SqlValue.str inp.f_ptype, SqlValue.str inp.f_loc,
       SqlValue.str inp.f_ftype, SqlValue.str inp.f_meal]),
    (sqlViewFood, []),
    (sqlPickFoodQty, []),
    (sqlUpdateQuantity, [SqlValue.int inp.upd_qty, SqlValue.int inp.upd_food_id]),
    (sqlPickFood, []),
    (sqlDeleteFood, [SqlValue.int inp.del_food_id]),
    (sqlPickReceivers, []),
    (sqlInsertClaim,
      [SqlValue.int inp.claim_food_id, SqlValue.int inp.claim_receiver_id,
       SqlValue.str inp.claim_status]),
    (sqlViewClaims, []),
    (sqlPickClaimsStatus, []),
    (sqlUpdateClaimStatus,
      [SqlValue.str inp.upd_claim_status, SqlValue.int inp.upd_claim_id]),
    (sqlPickClaims, []),
    (sqlDeleteClaim, [SqlValue.int inp.del_claim_id]) ]

/-- C8: No caller-supplied value ever reaches a query text — the texts
issued by any two render passes, whatever the inputs, are identical,
so user values travel only through the positional parameter tuples —
and the sole concatenated text is insight 15, whose interpolated piece
is `date_expr` applied to the hard-coded column name `"Expiry_Date"`,
producing the fixed cast expression. -/
theorem positional_binding_only :
    (∀ i1 i2 : AppInputs, (allQueries i1).map Prod.fst = (allQueries i2).map Prod.fst) ∧
    sql15 = "SELECT \"Food_Name\", \"Expiry_Date\", \"Quantity\" FROM food_listings WHERE " ++
        date_expr "Expiry_Date" ++ " > CURRENT_DATE ORDER BY " ++
        date_expr "Expiry_Date" ++ " ASC LIMIT 1;" ∧
    date_expr "Expiry_Date" = "\"Expiry_Date\"::date" :=
  ⟨fun _ _ => rfl, rfl, rfl⟩

lemma dateLeB_refl (a : DateVal) : dateLeB a a = true := by
  simp [dateLeB, dateLtB]

lemma dateLeB_total (a b : DateVal) : dateLeB a b = true ∨ dateLeB b a = true := by
  simp only [dateLeB, dateLtB, Bool.not_eq_true', decide_eq_false_iff_not]
  omega

lemma dateLeB_trans (a b c : DateVal) (hab : dateLeB a b = true)
    (hbc : dateLeB b c = true) : dateLeB a c = true := by
  simp only [dateLeB, dateLtB, Bool.not_eq_true', decide_eq_false_iff_not] at hab hbc ⊢
  omega

lemma mem_insertSorted {α : Type} (le : α → α → Bool) (a b : α) (l : List α) :
    b ∈ insertSorted le a l ↔ b = a ∨ b ∈ l := by
  induction l with
  | nil => simp [insertSorted]
  | cons hd tl ih =>
    by_cases h : le a hd = true
    · simp [insertSorted, h]
    · simp only [insertSorted, if_neg h, List.mem_cons, ih]
      tauto

lemma pairwise_insertSorted {α : Type} {le : α → α → Bool}
    (trans : ∀ x y z : α, le x y = true → le y z = true → le x z = true)
    (total : ∀ x y : α, le x y = true ∨ le y x = true)
    (a : α) (l : List α) (hl : l.Pairwise (fun x y => le x y = true)) :
    (insertSorted le a l).Pairwise (fun x y => le x y = true) := by
  induction l with
  | nil => simp [insertSorted]
  | cons hd tl ih =>
    rcases List.pairwise_cons.mp hl with ⟨hhd, htl⟩
    by_cases h : le a hd = true
    · rw [insertSorted, if_pos h]
      refine List.Pairwise.cons ?_ hl
      intro b hb
      rcases List.mem_cons.mp hb with rfl | hbtl
      · exact h
      · exact trans a hd b h (hhd b hbtl)
    · rw [insertSorted, if_neg h]
      refine List.Pairwise.cons ?_ (ih htl)
      intro b hb
      rcases (mem_insertSorted le a b tl).mp hb with rfl | hbtl
      · rcases total hd b with hgood | hbad
        · exact hgood
        · exact absurd hbad h
      · exact hhd b hbtl

lemma pairwise_sortBy {α : Type} {le : α → α → Bool}
    (trans : ∀ x y z : α, le x y = true → le y z = true → le x z = true)
    (total : ∀ x y : α, le x y = true ∨ le y x = true)
    (l : List α) : (sortBy le l).Pairwise (fun x y => le x y = true) := by
  induction l with
  | nil => simp [sortBy]
  | cons a tl ih => exact pairwise_insertSorted trans total a (sortBy le tl) ih

lemma mem_sortBy {α : Type} (le : α → α → Bool) (b : α) (l : List α) :
    b ∈ sortBy le l ↔ b ∈ l := by
  induction l with
  | nil => simp [sortBy]
  | cons a tl ih => simp [sortBy, mem_insertSorted, ih]

lemma castRows_ok_mem : ∀ {rows : List FoodRow} {parsed : List (FoodRow × DateVal)},
    castRows rows = Except.ok parsed →
    ∀ rd ∈ parsed, rd.1 ∈ rows ∧ parseDate rd.1.Expiry_Date = some rd.2 := by
  intro rows
  induction rows with
  | nil =>
    intro parsed h rd hrd
    simp only [castRows, Except.ok.injEq] at h
    subst h
    simp at hrd
  | cons r rest ih =>
    intro parsed h rd hrd
    simp only [castRows] at h
    cases hp : parseDate r.Expiry_Date with
    | none => rw [hp] at h; exact absurd h (by simp)
    | some d =>
      rw [hp] at h
      cases hrest : castRows rest with
      | error e => rw [hrest] at h; exact absurd h (by simp)
      | ok tl =>
        rw [hrest] at h
        simp only [Except.ok.injEq] at h
        subst h
        rcases List.mem_cons.mp hrd with rfl | htl
        · exact ⟨List.mem_cons_self _ _, hp⟩
        · rcases ih hrest rd htl with ⟨hmem, hparse⟩
          exact ⟨List.mem_cons_of_mem _ hmem, hparse⟩

lemma castRows_ok_covers : ∀ {rows : List FoodRow} {parsed : List (FoodRow × DateVal)},
    castRows rows = Except.ok parsed →
    ∀ r ∈ rows, ∃ d, parseDate r.Expiry_Date = some d ∧ (r, d) ∈ parsed := by
  intro rows
  induction rows with
  | nil =>
    intro parsed _ r hr
    simp at hr
  | cons r0 rest ih =>
    intro parsed h r hr
    simp only [castRows] at h
    cases hp : parseDate r0.Expiry_Date with
    | none => rw [hp] at h; exact absurd h (by simp)
    | some d0 =>
      rw [hp] at h
      cases hrest : castRows rest with
      | error e => rw [hrest] at h; exact absurd h (by simp)
      | ok tl =>
        rw [hrest] at h
        simp only [Except.ok.injEq] at h
        subst h
        rcases List.mem_cons.mp hr with rfl | hrtl
        · exact ⟨d0, hp, List.mem_cons_self _ _⟩
        · rcases ih hrest r hrtl with ⟨d, hd, hmem⟩
          exact ⟨d, hd, List.mem_cons_of_mem _ hmem⟩

/-- C6: When the nearest-expiry query returns a row, that row comes
from the table, its expiry text casts to a date strictly after the
current date, and that date is minimal among all rows whose cast expiry
is strictly after the current date. -/
theorem query15_nearest_expiry (rows : List FoodRow) (today : DateVal)
    (out : String × String × Int)
    (h : query15 rows today = Except.ok (some out)) :
    ∃ r, r ∈ rows ∧ ∃ d, parseDate r.Expiry_Date = some d ∧
      out = (r.Food_Name, r.Expiry_Date, r.Quantity) ∧
      dateLtB today d = true ∧
      (∀ r2, r2 ∈ rows → ∀ d2, parseDate r2.Expiry_Date = some d2 →
        dateLtB today d2 = true → dateLeB d d2 = true) := by
  unfold query15 at h
  cases hc : castRows rows with
  | error e => rw [hc] at h; exact absurd h (by simp)
  | ok parsed =>
    rw [hc] at h
    simp only [Except.ok.injEq] at h
    have hptrans : ∀ x y z : FoodRow × DateVal,
        dateLeB x.2 y.2 = true → dateLeB y.2 z.2 = true → dateLeB x.2 z.2 = true :=
      fun x y z hxy hyz => dateLeB_trans x.2 y.2 z.2 hxy hyz
    have hptotal : ∀ x y : FoodRow × DateVal,
        dateLeB x.2 y.2 = true ∨ dateLeB y.2 x.2 = true :=
      fun x y => dateLeB_total x.2 y.2
    have hpw := @pairwise_sortBy (FoodRow × DateVal)
      (fun a b : FoodRow × DateVal => dateLeB a.2 b.2)
      hptrans hptotal (parsed.filter (fun rd => dateLtB today rd.2))
    cases hsorted : sortBy (fun a b : FoodRow × DateVal => dateLeB a.2 b.2)
        (parsed.filter (fun rd => dateLtB today rd.2)) with
    | nil => rw [hsorted] at h; exact absurd h (by simp)
    | cons rd0 tl =>
      rw [hsorted] at h hpw
      have hout : (rd0.1.Food_Name, rd0.1.Expiry_Date, rd0.1.Quantity) = out := by
        simpa using h
      rcases List.pairwise_cons.mp hpw with ⟨hmin, _⟩
      have hrd0mem : rd0 ∈ parsed.filter (fun rd => dateLtB today rd.2) := by
        rw [← mem_sortBy (fun a b : FoodRow × DateVal => dateLeB a.2 b.2), hsorted]
        exact List.mem_cons_self _ _
      rcases List.mem_filter.mp hrd0mem with ⟨hrd0parsed, hrd0fut⟩
      rcases castRows_ok_mem hc rd0 hrd0parsed with ⟨hrowmem, hparse⟩
      refine ⟨rd0.1, hrowmem, rd0.2, hparse, hout.symm, hrd0fut, ?_⟩
      intro r2 hr2 d2 hd2 hfut2
      rcases castRows_ok_covers hc r2 hr2 with ⟨d2', hd2', hmem2⟩
      have hdd : d2' = d2 := Option.some_injective _ (hd2'.symm.trans hd2)
      rw [hdd] at hmem2
      have hmemf : (r2, d2) ∈ parsed.filter (fun rd => dateLtB today rd.2) :=
        List.mem_filter.mpr ⟨hmem2, hfut2⟩
      have hmemsort : (r2, d2) ∈
          sortBy (fun a b : FoodRow × DateVal => dateLeB a.2 b.2)
            (parsed.filter (fun rd => dateLtB today rd.2)) :=
        (mem_sortBy _ _ _).mpr hmemf
      rw [hsorted] at hmemsort
      rcases List.mem_cons.mp hmemsort with heq | htl
      · rw [show d2 = rd0.2 from congrArg Prod.snd heq]
        exact dateLeB_refl rd0.2
      · exact hmin (r2, d2) htl

/-- C6 witness: with listings expiring 2025-01-01 (past), 2025-12-01 and
2025-11-15, and current date 2025-06-01, the query returns the
2025-11-15 row, and that row is a strictly-future minimal-expiry row. -/
theorem query15_nearest_expiry_witness :
    query15
        [⟨1, "Rice", 10, "2025-01-01"⟩, ⟨2, "Milk", 3, "2025-12-01"⟩,
          ⟨3, "Bread", 5, "2025-11-15"⟩] (2025, 6, 1) =
      Except.ok (some ("Bread", "2025-11-15", 5)) ∧
    (∃ r, r ∈ ([⟨1, "Rice", 10, "2025-01-01"⟩, ⟨2, "Milk", 3, "2025-12-01"⟩,
          ⟨3, "Bread", 5, "2025-11-15"⟩] : List FoodRow) ∧
      ∃ d, parseDate r.Expiry_Date = some d ∧
        ("Bread", "2025-11-15", 5) = (r.Food_Name, r.Expiry_Date, r.Quantity) ∧
        dateLtB (2025, 6, 1) d = true ∧
        (∀ r2, r2 ∈ ([⟨1, "Rice", 10, "2025-01-01"⟩, ⟨2, "Milk", 3, "2025-12-01"⟩,
            ⟨3, "Bread", 5, "2025-11-15"⟩] : List FoodRow) →
          ∀ d2, parseDate r2.Expiry_Date = some d2 →
            dateLtB (2025, 6, 1) d2 = true → dateLeB d d2 = true)) :=
  ⟨rfl,
    query15_nearest_expiry
      [⟨1, "Rice", 10, "2025-01-01"⟩, ⟨2, "Milk", 3, "2025-12-01"⟩,
        ⟨3, "Bread", 5, "2025-11-15"⟩] (2025, 6, 1) ("Bread", "2025-11-15", 5) rfl⟩

lemma roundHalfEven_intCast (m : ℤ) : roundHalfEven (m : ℚ) = m := by
  unfold roundHalfEven
  rw [Int.floor_intCast]
  have h : (m : ℚ) - (m : ℚ) < 1 / 2 := by norm_num
  simp [h]

/-- C5 (amended): the success-rate KPI is the completed/total ratio
times 100 rounded half-to-even at two decimal places; whenever that
ratio needs at most two decimal places (the claim's 50.0 example, and
the zero-claims case, where the convention 0.0 applies) it equals the
exact ratio `completed / total * 100`. -/
theorem success_rate_exact_on_terminating_ratio (statuses : List String)
    (h : 10000 * completed_claims statuses % statuses.length = 0) :
    success_rate statuses =
      100 * (completed_claims statuses : ℚ) / (statuses.length : ℚ) := by
  by_cases hn : statuses.length = 0
  · simp [success_rate, hn]
  · obtain ⟨k, hk⟩ : statuses.length ∣ 10000 * completed_claims statuses :=
      Nat.dvd_of_mod_eq_zero h
    have hnq : (statuses.length : ℚ) ≠ 0 := Nat.cast_ne_zero.mpr hn
    have harg : 100 * (completed_claims statuses : ℚ) / (statuses.length : ℚ) * 100 =
        ((k : ℤ) : ℚ) := by
      rw [div_mul_eq_mul_div, div_eq_iff hnq]
      have hq : ((10000 * completed_claims statuses : ℕ) : ℚ) =
          ((statuses.length * k : ℕ) : ℚ) := by exact_mod_cast congrArg (fun n : ℕ => (n : ℚ)) hk
      push_cast at hq ⊢
      linarith
    unfold success_rate round2
    rw [if_neg hn, harg, roundHalfEven_intCast]
    rw [div_eq_iff (by norm_num : (100 : ℚ) ≠ 0)]
    exact harg.symm

/-- C5 counterexample: with claims `[Completed, Pending, Pending]` the
code's KPI is `33.33` (banker's rounding at two decimals), not the
claimed exact ratio `100/3 = 33.333...`. -/
theorem success_rate_not_exact_counterexample :
    success_rate ["Completed", "Pending", "Pending"] ≠
      100 * (completed_claims ["Completed", "Pending", "Pending"] : ℚ) /
        ((["Completed", "Pending", "Pending"] : List String).length : ℚ) := by
  have hc : completed_claims ["Completed", "Pending", "Pending"] = 1 := by decide
  have hl : (["Completed", "Pending", "Pending"] : List String).length = 3 := rfl
  have hfloor : ⌊(10000 / 3 : ℚ)⌋ = 3333 := by
    rw [show (10000 / 3 : ℚ) = ((10000 : ℤ) : ℚ) / ((3 : ℕ) : ℚ) by norm_num]
    rw [Rat.floor_intCast_div_natCast]
    decide
  have hval : success_rate ["Completed", "Pending", "Pending"] = 3333 / 100 := by
    unfold success_rate
    rw [hc, hl, if_neg (by norm_num : ¬ (3 : ℕ) = 0)]
    unfold round2
    rw [show 100 * ((1 : ℕ) : ℚ) / ((3 : ℕ) : ℚ) * 100 = 10000 / 3 by push_cast; ring]
    unfold roundHalfEven
    rw [hfloor, if_pos (by norm_num : (10000 / 3 : ℚ) - ((3333 : ℤ) : ℚ) < 1 / 2)]
    norm_num
  rw [hval, hc, hl]
  norm_num

/-- C5 witness: for claims `[Completed, Completed, Pending, Cancelled]`
the divisibility condition holds and the KPI equals the exact ratio
`100 * 2 / 4 = 50`; for zero claims it is `0`. -/
theorem success_rate_kpi_witness :
    10000 * completed_claims ["Completed", "Completed", "Pending", "Cancelled"] %
        (["Completed", "Completed", "Pending", "Cancelled"] : List String).length = 0 ∧
    success_rate ["Completed", "Completed", "Pending", "Cancelled"] = 50 ∧
    success_rate [] = 0 := by
  refine ⟨by decide, ?_, ?_⟩
  · have h := success_rate_exact_on_terminating_ratio
      ["Completed", "Completed", "Pending", "Cancelled"] (by decide)
    rw [h, show completed_claims ["Completed", "Completed", "Pending", "Cancelled"] = 2
      from by decide]
    norm_num
  · have h0 := success_rate_exact_on_terminating_ratio [] (by decide)
    rw [h0]
    norm_num

/-- C3: The claim says `get_conn` opens connections from the five
caller-supplied configuration inputs, so that changing any of them
changes the connection arguments. In the code the connect call
hard-codes all five arguments and never reads the configuration: with
a completely different configuration the connection arguments are
still the literal defaults, and any two configurations yield the same
arguments. -/
theorem get_conn_ignores_config :
    get_conn { DB_HOST := "db.example.com", DB_NAME := "proddb", DB_USER := "admin",
               DB_PASS := "s3cret", DB_PORT := 5433 } =
      { host := "localhost", dbname := "foodapp", user := "postgres",
        password := "nagda@321", port := "5432" } ∧
    ∀ c1 c2 : DbConfig, get_conn c1 = get_conn c2 :=
  ⟨rfl, fun _ _ => rfl⟩

/-- C10: When `many` is not `None`, `execute_sql` completely ignores the
single-tuple `params` argument (any two values of `params` give identical
outcomes), while with `many = None` the `params` argument does take
effect (there is an execution semantics and a pair of parameter tuples
producing different outcomes). -/
theorem execute_sql_many_ignores_params :
    (∀ (E S : Type) (exec : String → SqlParams → S → Except E S) (q : String)
        (p1 p2 : SqlParams) (m : List SqlParams) (db : S),
        execute_sql exec q p1 (some m) db = execute_sql exec q p2 (some m) db) ∧
    ¬ (∀ (exec : String → SqlParams → List Int → Except Unit (List Int)) (q : String)
        (p1 p2 : SqlParams) (db : List Int),
        execute_sql exec q p1 none db = execute_sql exec q p2 none db) := by
  constructor
  · intro E S exec q p1 p2 m db
    rfl
  · intro hall
    have h := hall
      (fun _ p st =>
        match p with
        | [SqlValue.int i] => Except.ok (st ++ [i])
        | _ => Except.ok st)
      "INSERT INTO t VALUES (%s);" [SqlValue.int 1] [SqlValue.int 2] []
    have hstore := congrArg ExecOutcome.store h
    simp [execute_sql, exec_body] at hstore

/-- C7: Issuing the UPDATE-quantity mutation twice with the same target
quantity and identifier produces, from the store left by the first call,
exactly the same outcome again — the observable store (and the whole
call outcome) is the same as after issuing it once. -/
theorem update_quantity_idempotent (qty fid : Int) (db : List FoodRow) :
    execute_sql updateQuantityExec sqlUpdateQuantity [SqlValue.int qty, SqlValue.int fid] none
        ((execute_sql updateQuantityExec sqlUpdateQuantity
            [SqlValue.int qty, SqlValue.int fid] none db).store) =
      execute_sql updateQuantityExec sqlUpdateQuantity
        [SqlValue.int qty, SqlValue.int fid] none db := by
  simp only [execute_sql, exec_body, updateQuantityExec]
  rw [List.map_map]
  have hmap : db.map (updateQuantityRow qty fid ∘ updateQuantityRow qty fid) =
      db.map (updateQuantityRow qty fid) :=
    List.map_congr_left fun r _ => updateQuantityRow_idem qty fid r
  rw [hmap]

/-- C4: The insight-3 city filter, one parameterized predicate
`(%s IS NULL) OR ("City" = %s)`: a null filter returns every provider's
contact projection unfiltered, and a non-null filter returns exactly the
projections of the providers whose `City` equals the filter string. -/
theorem query3_city_filter (rows : List Provider) :
    query3 rows (provider_city "") = rows.map providerContact ∧
    (∀ s : String, query3 rows (some s) =
      (rows.filter (fun r => r.City = s)).map providerContact) ∧
    (∀ s : String, ∀ out, out ∈ query3 rows (some s) ↔
      ∃ r ∈ rows, r.City = s ∧ out = providerContact r) := by
  refine ⟨?_, ?_, ?_⟩
  · simp [query3, provider_city, providerContact]
  · intro s
    have hfilter : rows.filter (fun r => (some s).isNone || some s = some r.City) =
        rows.filter (fun r => r.City = s) := by
      apply List.filter_congr
      intro r _
      simp [eq_comm]
    simp only [query3, hfilter]
    rfl
  · intro s out
    constructor
    · intro hmem
      simp only [query3, List.mem_map, List.mem_filter] at hmem
      obtain ⟨r, ⟨hr, hcity⟩, hout⟩ := hmem
      refine ⟨r, hr, ?_, hout.symm⟩
      simpa [eq_comm] using hcity
    · rintro ⟨r, hr, hcity, hout⟩
      simp only [query3, List.mem_map, List.mem_filter]
      exact ⟨r, ⟨hr, by simp [hcity]⟩, hout.symm⟩
